import Mathlib

/-!
# Verification of the lpc11uxx-hal clock-tree configuration engine

This file is a shallow embedding, in Lean 4, of the clock configuration
module of the `lpc11uxx-hal` Rust crate (`src/clock.rs`), together with
theorems settling the specification claims about it.

Modelling conventions:

* Rust `u32` values are modelled as `Nat`; arithmetic that the source
  performs on `u32` is reduced modulo `2^32` (`u32Mod`) exactly where the
  source operation can wrap (release-profile wrapping semantics of Rust
  integer arithmetic).  The `as u8` cast is modelled as `% 256`, which is
  its unconditional Rust semantics.
* Rust panics (`minipanic!` / `miniassert!` and the built-in panics on
  division/remainder by zero) are modelled as `Except.error` values of the
  inductive type `ClockError`; each constructor records the panic site.
* The register-enum types of the `lpc11uxx` peripheral-access crate
  (`mainclksel::SEL_A`, `syspllclksel::SEL_A`, `wdtoscctrl::FREQSEL_A`,
  `flashctrl::flashcfg::FLASHTIM_A`) are modelled as plain inductives with
  one constructor per variant used by the HAL.
* The hardware-application sequence `ClocksDescriptor::build` is modelled
  by the list of register writes it emits, in program order
  (`ClocksDescriptor.buildTrace`); the busy-wait loops perform no register
  writes (the crystal settle loop touches only a stack variable and the
  PLL lock wait only reads a status register), so they contribute no
  events.
-/

namespace Lpc11uxx

/-- Reduction modulo `2^32`: wrapping semantics of Rust `u32` arithmetic. -/
def u32Mod (n : Nat) : Nat := n % 4294967296

/-- Embeds `pub struct Hertz(pub u32)` (src/clock.rs:55). -/
structure Hertz where
  val : Nat
deriving DecidableEq, Repr

/-- Embeds `impl core::ops::Mul<u32> for Hertz` (src/clock.rs:57-62).
Note that the body of the source `mul` computes `Hertz(self.0 + rhs)` —
an addition, not a multiplication. -/
def Hertz.mul (h : Hertz) (rhs : Nat) : Hertz :=
  ⟨u32Mod (h.val + rhs)⟩

/-- Embeds `const IRC_OSCILLATOR_FREQUENCY: Hertz = Hertz(12_000_000)`
(src/clock.rs:64). -/
def IRC_OSCILLATOR_FREQUENCY : Hertz := ⟨12000000⟩

/-- Embeds `mainclksel::SEL_A`: selector values of the main-clock mux accepted by
`MAINCLKSEL`. -/
inductive MAINCLKSEL where
  | irc_oscillator
  | pll_input
  | pll_output
  | watchdog_oscillator
deriving DecidableEq, Repr

/-- Embeds `syspllclksel::SEL_A`: selector values of the system-PLL input mux. -/
inductive SYSPLLCLKSEL where
  | irc
  | crystal_oscillator
deriving DecidableEq, Repr

/-- Embeds `wdtoscctrl::FREQSEL_A`: the 15 watchdog-oscillator analog frequency
bands (the hardware value `0` is reserved/illegal and has no variant). -/
inductive FREQSEL where
  | wdt_0_6_mhz
  | wdt_1_05_mhz
  | wdt_1_4_mhz
  | wdt_1_75_mhz
  | wdt_2_1_mhz
  | wdt_2_4_mhz
  | wdt_2_7_mhz
  | wdt_3_0_mhz
  | wdt_3_25_mhz
  | wdt_3_5_mhz
  | wdt_3_75_mhz
  | wdt_4_0_mhz
  | wdt_4_2_mhz
  | wdt_4_4_mhz
  | wdt_4_6_mhz
deriving DecidableEq, Repr

/-- The numeric register value of a `FREQSEL_A` variant (`freq as usize`
in src/clock.rs:119); the reserved value `0` is not representable. -/
def FREQSEL.toIndex : FREQSEL → Nat
  | .wdt_0_6_mhz => 1
  | .wdt_1_05_mhz => 2
  | .wdt_1_4_mhz => 3
  | .wdt_1_75_mhz => 4
  | .wdt_2_1_mhz => 5
  | .wdt_2_4_mhz => 6
  | .wdt_2_7_mhz => 7
  | .wdt_3_0_mhz => 8
  | .wdt_3_25_mhz => 9
  | .wdt_3_5_mhz => 10
  | .wdt_3_75_mhz => 11
  | .wdt_4_0_mhz => 12
  | .wdt_4_2_mhz => 13
  | .wdt_4_4_mhz => 14
  | .wdt_4_6_mhz => 15

/-- Embeds `const WDT_OSC_RATE: &[u32]` (src/clock.rs:66-83); entry 0 is the
`WDT_OSC_ILLEGAL` placeholder. -/
def WDT_OSC_RATE : List Nat :=
  [0, 600000, 1050000, 1400000, 1750000, 2100000, 2400000, 2700000,
   3000000, 3250000, 3500000, 3750000, 4000000, 4200000, 4400000, 4600000]

/-- Embeds `const fn wdtosc_freq_to_hertz` (src/clock.rs:118-120). -/
def wdtosc_freq_to_hertz (freq : FREQSEL) : Hertz :=
  ⟨WDT_OSC_RATE.getD freq.toIndex 0⟩

/-- Embeds `flashctrl::flashcfg::FLASHTIM_A`: flash access-time settings used by
the HAL (`_1_SYSTEM_CLOCK_FLASH`, `_2_SYSTEM_CLOCKS_FLAS`,
`_3_SYSTEM_CLOCKS_FLAS`). -/
inductive FLASHTIM where
  | clocks1
  | clocks2
  | clocks3
deriving DecidableEq, Repr

/-- Panic sites of the clock module, taken as the validation error type.
Each constructor corresponds to one `minipanic!` / `miniassert!` message
or to a Rust arithmetic panic. -/
inductive ClockError where
  /-- Panic message "Main clock configured with PLL Input, but PLL unconfigured." -/
  | pllNotConfigured
  /-- Panic message "Main clock configured with Watchdog Oscillator, but Watchdog
  Oscillator unconfigured." -/
  | watchdogNotConfigured
  /-- Embeds `unwrap(sys_osc_freq)` panic in `get_main_clock_freq`
  (src/clock.rs:111-116): crystal path selected with no crystal
  frequency supplied. -/
  | missingSysOscFreq
  /-- Panic message "system_pll configured with external oscillator, but its frequency
  was not provided!" -/
  | missingCrystalFrequency
  /-- Panic message "PLL target frequency is not a multiple of input frequency" -/
  | notIntegerMultiple
  /-- Panic message "Target PLL frequency too high!" -/
  | multiplierOutOfRange
  /-- Panic message "Expecting frequencty to allow selecting a good value for p" -/
  | noValidPostDivider
  /-- Panic message "Watchdog frequency too high" -/
  | frequencyTooHigh
  /-- Panic message "Main clock frequency is not a multiple of system clock frequency" -/
  | notIntegerDivisible
  /-- Panic message "System frequency too high to configure flash controller timing" -/
  | frequencyExceedsFlashRating
  /-- Rust built-in panic on division or remainder by zero. -/
  | divideByZero
deriving DecidableEq, Repr

/-- Embeds `const fn get_main_clock_freq` (src/clock.rs:122-134): the main-clock
resolver.  The two `u32` multiplications of the `PLL_OUTPUT` rows wrap
modulo `2^32`. -/
def get_main_clock_freq (main_clock_source : MAINCLKSEL)
    (system_pll : Option (SYSPLLCLKSEL × Nat × Nat))
    (watchdog_osc : Option (FREQSEL × Nat))
    (sys_osc_freq : Option Hertz) : Except ClockError Hertz :=
  match main_clock_source, system_pll, watchdog_osc with
  | .irc_oscillator, _, _ => .ok IRC_OSCILLATOR_FREQUENCY
  | .pll_input, some (.irc, _, _), _ => .ok IRC_OSCILLATOR_FREQUENCY
  | .pll_input, some (.crystal_oscillator, _, _), _ =>
      match sys_osc_freq with
      | some v => .ok v
      | none => .error .missingSysOscFreq
  | .pll_output, some (.irc, m, _), _ =>
      .ok ⟨u32Mod (IRC_OSCILLATOR_FREQUENCY.val * (m + 1))⟩
  | .pll_output, some (.crystal_oscillator, m, _), _ =>
      match sys_osc_freq with
      | some v => .ok ⟨u32Mod (v.val * (m + 1))⟩
      | none => .error .missingSysOscFreq
  | .watchdog_oscillator, _, some (freq, dv) =>
      .ok ⟨(wdtosc_freq_to_hertz freq).val / (2 * (1 + dv))⟩
  | .pll_input, none, _ => .error .pllNotConfigured
  | .pll_output, none, _ => .error .pllNotConfigured
  | .watchdog_oscillator, _, none => .error .watchdogNotConfigured

/-- Embeds `const fn calculate_m_p` (src/clock.rs:136-164): the PLL parameter
solver.  `freq.0 % input_freq.0` panics when the input frequency is 0;
the subtraction `(freq.0 / input_freq.0) - 1` and the products
`2 * k * freq.0` wrap modulo `2^32`. -/
def calculate_m_p (freq : Hertz) (sys_osc : Option Hertz) :
    Except ClockError (Nat × Nat) :=
  let input_freq := match sys_osc with
    | some s => s
    | none => IRC_OSCILLATOR_FREQUENCY
  if input_freq.val = 0 then .error .divideByZero
  else if freq.val % input_freq.val ≠ 0 then .error .notIntegerMultiple
  else
    let m := u32Mod (freq.val / input_freq.val + 4294967295)
    if 32 ≤ m then .error .multiplierOutOfRange
    else
      let p_val1 := u32Mod (2 * 1 * freq.val)
      let p_val2 := u32Mod (2 * 2 * freq.val)
      let p_val4 := u32Mod (2 * 4 * freq.val)
      let p_val8 := u32Mod (2 * 8 * freq.val)
      if 156000000 ≤ p_val1 ∧ p_val1 < 320000000 then .ok (m, 0)
      else if 156000000 ≤ p_val2 ∧ p_val2 < 320000000 then .ok (m, 1)
      else if 156000000 ≤ p_val4 ∧ p_val4 < 320000000 then .ok (m, 2)
      else if 156000000 ≤ p_val8 ∧ p_val8 < 320000000 then .ok (m, 3)
      else .error .noValidPostDivider

/-- The watchdog-oscillator quantization chain of `ClocksBuilder::validate`
(src/clock.rs:238-275), extracted verbatim as a function of the requested
frequency. -/
def watchdogQuantize (watchdog_freq : Hertz) :
    Except ClockError (FREQSEL × Nat) :=
  if watchdog_freq.val < 600000 then .ok (.wdt_0_6_mhz, 1)
  else if watchdog_freq.val < 1050000 then .ok (.wdt_1_05_mhz, 1)
  else if watchdog_freq.val < 1400000 then .ok (.wdt_1_4_mhz, 1)
  else if watchdog_freq.val < 1750000 then .ok (.wdt_1_75_mhz, 1)
  else if watchdog_freq.val < 2100000 then .ok (.wdt_2_1_mhz, 1)
  else if watchdog_freq.val < 2400000 then .ok (.wdt_2_4_mhz, 1)
  else if watchdog_freq.val < 2700000 then .ok (.wdt_2_7_mhz, 1)
  else if watchdog_freq.val < 3000000 then .ok (.wdt_3_0_mhz, 1)
  else if watchdog_freq.val < 3250000 then .ok (.wdt_3_25_mhz, 1)
  else if watchdog_freq.val < 3500000 then .ok (.wdt_3_5_mhz, 1)
  else if watchdog_freq.val < 3750000 then .ok (.wdt_3_75_mhz, 1)
  else if watchdog_freq.val < 4000000 then .ok (.wdt_4_0_mhz, 1)
  else if watchdog_freq.val < 4200000 then .ok (.wdt_4_2_mhz, 1)
  else if watchdog_freq.val < 4400000 then .ok (.wdt_4_4_mhz, 1)
  else if watchdog_freq.val < 4600000 then .ok (.wdt_4_6_mhz, 1)
  else .error .frequencyTooHigh

/-- The flash wait-state selection chain of `ClocksBuilder::validate`
(src/clock.rs:287-295), extracted verbatim as a function of the resolved
system-clock frequency. -/
def flashtimFor (system_clock_freq : Nat) : Except ClockError FLASHTIM :=
  if system_clock_freq < 20000000 then .ok .clocks1
  else if system_clock_freq < 40000000 then .ok .clocks2
  else if system_clock_freq < 50000000 then .ok .clocks3
  else .error .frequencyExceedsFlashRating

/-- Embeds `pub struct ClocksBuilder` (src/clock.rs:182-189). -/
structure ClocksBuilder where
  main_clock_source : MAINCLKSEL
  system_pll : Option (SYSPLLCLKSEL × Hertz)
  system_clock_freq : Option Hertz
  system_osc_freq : Option Hertz
  watchdog_osc_freq : Option Hertz
deriving DecidableEq, Repr

/-- Embeds `ClocksBuilder::new` (src/clock.rs:192-200). -/
def ClocksBuilder.new (system_osc_freq : Option Hertz) : ClocksBuilder :=
  { main_clock_source := .irc_oscillator
    system_pll := none
    system_clock_freq := none
    system_osc_freq := system_osc_freq
    watchdog_osc_freq := none }

/-- Embeds `ClocksBuilder::system_pll` (src/clock.rs:202-205). -/
def ClocksBuilder.systemPll (b : ClocksBuilder) (pll_input : SYSPLLCLKSEL)
    (freq : Hertz) : ClocksBuilder :=
  { b with system_pll := some (pll_input, freq) }

/-- Embeds `ClocksBuilder::system_clock` (src/clock.rs:207-210). -/
def ClocksBuilder.systemClock (b : ClocksBuilder) (freq : Hertz) :
    ClocksBuilder :=
  { b with system_clock_freq := some freq }

/-- Embeds `ClocksBuilder::watchdog_oscillator` (src/clock.rs:212-215). -/
def ClocksBuilder.watchdogOscillator (b : ClocksBuilder) (freq : Hertz) :
    ClocksBuilder :=
  { b with watchdog_osc_freq := some freq }

/-- Embeds `ClocksBuilder::main_clock` (src/clock.rs:217-220). -/
def ClocksBuilder.mainClock (b : ClocksBuilder)
    (main_clock_source : MAINCLKSEL) : ClocksBuilder :=
  { b with main_clock_source := main_clock_source }

/-- Embeds `pub struct ClocksDescriptor` (src/clock.rs:308-315). -/
structure ClocksDescriptor where
  main_clock_source : MAINCLKSEL
  system_osc_freq : Option Hertz
  system_pll_m_p : Option (SYSPLLCLKSEL × Nat × Nat)
  system_clock_div : Nat
  watchdog_osc : Option (FREQSEL × Nat)
  flashtim : FLASHTIM
deriving DecidableEq, Repr

/-- The PLL-resolution step of `ClocksBuilder::validate`
(src/clock.rs:223-236). -/
def pllStep (b : ClocksBuilder) :
    Except ClockError (Option (SYSPLLCLKSEL × Nat × Nat)) :=
  match b.system_pll with
  | some (input_clock, freq) =>
      let sysOscStep : Except ClockError (Option Hertz) :=
        match input_clock with
        | .crystal_oscillator =>
            match b.system_osc_freq with
            | some v => .ok (some v)
            | none => .error .missingCrystalFrequency
        | .irc => .ok none
      match sysOscStep with
      | .error e => .error e
      | .ok sys_osc =>
          match calculate_m_p freq sys_osc with
          | .error e => .error e
          | .ok (m, p) => .ok (some (input_clock, m, p))
  | none => .ok none

/-- The watchdog-resolution step of `ClocksBuilder::validate`
(src/clock.rs:238-275). -/
def wdtStep (b : ClocksBuilder) :
    Except ClockError (Option (FREQSEL × Nat)) :=
  match b.watchdog_osc_freq with
  | some wf =>
      match watchdogQuantize wf with
      | .error e => .error e
      | .ok w => .ok (some w)
  | none => .ok none

/-- The system-clock-divider step of `ClocksBuilder::validate`
(src/clock.rs:279-284).  `main_clock_freq.0 % freq.0` panics when the
requested target is 0; the `as u8` cast truncates the quotient to
`% 256`. -/
def divStep (b : ClocksBuilder) (main_clock_freq : Hertz) :
    Except ClockError Nat :=
  match b.system_clock_freq with
  | some freq =>
      if freq.val = 0 then .error .divideByZero
      else if main_clock_freq.val % freq.val = 0 then
        .ok ((main_clock_freq.val / freq.val) % 256)
      else .error .notIntegerDivisible
  | none => .ok 1

/-- Embeds `ClocksBuilder::validate` (src/clock.rs:222-305).  The division
`main_clock_freq.0 / system_clock_div as u32` (src/clock.rs:286) panics
when the truncated divider is 0. -/
def ClocksBuilder.validate (b : ClocksBuilder) :
    Except ClockError ClocksDescriptor :=
  match pllStep b with
  | .error e => .error e
  | .ok system_pll_m_p =>
    match wdtStep b with
    | .error e => .error e
    | .ok watchdog_osc =>
      match get_main_clock_freq b.main_clock_source system_pll_m_p
          watchdog_osc b.system_osc_freq with
      | .error e => .error e
      | .ok main_clock_freq =>
        match divStep b main_clock_freq with
        | .error e => .error e
        | .ok system_clock_div =>
          if system_clock_div = 0 then .error .divideByZero
          else
            match flashtimFor (main_clock_freq.val / system_clock_div) with
            | .error e => .error e
            | .ok flashtim =>
                .ok { main_clock_source := b.main_clock_source
                      system_osc_freq := b.system_osc_freq
                      system_pll_m_p := system_pll_m_p
                      system_clock_div := system_clock_div
                      watchdog_osc := watchdog_osc
                      flashtim := flashtim }

/-! ## Hardware-application sequence (`ClocksDescriptor::build`) -/

/-- One register write of the hardware-application sequence
`ClocksDescriptor::build` (src/clock.rs:322-412), in the order the source
issues them.  Register reads (the PLL lock poll) and the crystal settle
busy-wait (which touches only a stack variable) emit no event. -/
inductive WriteEvent where
  /-- Embeds `pdruncfg.modify(... ircout_pd().powered().irc_pd().powered())` -/
  | pdruncfg_irc_powered
  /-- Embeds `pdruncfg.modify(... sysosc_pd().powered())` -/
  | pdruncfg_sysosc_powered
  /-- Embeds `syspllclksel.write(... sel().variant(pll_input))` -/
  | syspllclksel (sel : SYSPLLCLKSEL)
  /-- Embeds `syspllclkuen.write(... ena().no_change())` -/
  | syspllclkuen_no_change
  /-- Embeds `syspllclkuen.write(... ena().update_clock_source())` -/
  | syspllclkuen_update
  /-- Embeds `pdruncfg.modify(... syspll_pd().powered_down())` -/
  | pdruncfg_syspll_powered_down
  /-- Embeds `syspllctrl.write(... msel().bits(m).psel().bits(p))` -/
  | syspllctrl (m p : Nat)
  /-- Embeds `pdruncfg.modify(... syspll_pd().powered())` -/
  | pdruncfg_syspll_powered
  /-- Embeds `sysahbclkdiv.write(... div().bits(...))` -/
  | sysahbclkdiv (dv : Nat)
  /-- Embeds `fmc.flashcfg.write(... flashtim().variant(...))` -/
  | flashcfg (tim : FLASHTIM)
  /-- Embeds `mainclksel.write(... sel().variant(...))` -/
  | mainclksel (sel : MAINCLKSEL)
  /-- Embeds `mainclkuen.write(... ena().no_change())` -/
  | mainclkuen_no_change
  /-- Embeds `mainclkuen.write(... ena().update_clock_source())` -/
  | mainclkuen_update
  /-- Embeds `sysahbclkctrl.modify(... iocon().enabled())` -/
  | sysahbclkctrl_iocon_enabled
deriving DecidableEq, Repr

/-- The sequence of register writes emitted by `ClocksDescriptor::build`
(src/clock.rs:322-412), in program order. -/
def ClocksDescriptor.buildTrace (d : ClocksDescriptor) : List WriteEvent :=
  (match d.system_pll_m_p with
   | some (pll_input, m, p) =>
       (match pll_input with
        | .irc => [.pdruncfg_irc_powered]
        | .crystal_oscillator => [.pdruncfg_sysosc_powered]) ++
       [.syspllclksel pll_input,
        .syspllclkuen_no_change,
        .syspllclkuen_update,
        .pdruncfg_syspll_powered_down,
        .syspllctrl m p,
        .pdruncfg_syspll_powered]
   | none => []) ++
  (match d.main_clock_source with
   | .irc_oscillator => [.pdruncfg_irc_powered]
   | .watchdog_oscillator => []
   | .pll_input => []
   | .pll_output => []) ++
  [.sysahbclkdiv d.system_clock_div,
   .flashcfg d.flashtim,
   .mainclksel d.main_clock_source,
   .mainclkuen_no_change,
   .mainclkuen_update,
   .sysahbclkctrl_iocon_enabled]

/-- Embeds `true` exactly on writes to the system-clock-divider register
(`SYSAHBCLKDIV`) and the flash wait-state register (`FLASHCFG`). -/
def WriteEvent.isDivOrFlashWrite : WriteEvent → Bool
  | .sysahbclkdiv _ => true
  | .flashcfg _ => true
  | _ => false

/-- Embeds `true` exactly on the writes that perform the main-clock mux selection
and its two-register update handshake (`MAINCLKSEL`, `MAINCLKUEN`). -/
def WriteEvent.isMainSelectWrite : WriteEvent → Bool
  | .mainclksel _ => true
  | .mainclkuen_no_change => true
  | .mainclkuen_update => true
  | _ => false

/-! ## Peripheral clock capabilities (`Syscon`) -/

/-- The `SYSAHBCLKCTRL` system-clock-gate register, modelled at the
granularity of the fields the HAL touches: the USART, GPIO and IOCON gate
bits, plus the remaining bits of the register collapsed into `others`. -/
structure SYSAHBCLKCTRL where
  usart : Bool
  gpio : Bool
  iocon : Bool
  others : Nat
deriving DecidableEq, Repr

/-- Embeds `Syscon::enable_gpio` (src/clock.rs:535-542): a read-modify-write of
`SYSAHBCLKCTRL` that sets the USART gate field to `disabled` and writes
every other field back unchanged. -/
def Syscon.enable_gpio (reg : SYSAHBCLKCTRL) : SYSAHBCLKCTRL :=
  { reg with usart := false }

/-! ## Specification-side definitions

These definitions follow the words of the specification (not the source);
they exist only to be compared against the source-derived definitions
above in refinement theorems. -/

/-- Modelled from the spec: the case table of §4.3 for the main-clock
resolver, amended on the `PLLOutput`/`ExternalCrystal` row, where the
product `crystal_freq × (M+1)` is reduced modulo `2^32` (the source
multiplies two `u32` values), and completed on the
`PLLOutput`/`ExternalCrystal`/no-crystal combination, which fails like
the `PLLInput` row does. -/
def resolveMainClockSpec (source : MAINCLKSEL)
    (pll_state : Option (SYSPLLCLKSEL × Nat × Nat))
    (watchdog_state : Option (FREQSEL × Nat))
    (crystal_freq : Option Hertz) : Except ClockError Hertz :=
  match source, pll_state, watchdog_state with
  | .irc_oscillator, _, _ => .ok ⟨12000000⟩
  | .pll_input, some (.irc, _, _), _ => .ok ⟨12000000⟩
  | .pll_input, some (.crystal_oscillator, _, _), _ =>
      match crystal_freq with
      | some v => .ok v
      | none => .error .missingSysOscFreq
  | .pll_output, some (.irc, m, _), _ => .ok ⟨12000000 * (m + 1)⟩
  | .pll_output, some (.crystal_oscillator, m, _), _ =>
      match crystal_freq with
      | some v => .ok ⟨(v.val * (m + 1)) % 4294967296⟩
      | none => .error .missingSysOscFreq
  | .watchdog_oscillator, _, some (band, divisor) =>
      .ok ⟨(wdtosc_freq_to_hertz band).val / (2 * (1 + divisor))⟩
  | .pll_input, none, _ => .error .pllNotConfigured
  | .pll_output, none, _ => .error .pllNotConfigured
  | .watchdog_oscillator, _, none => .error .watchdogNotConfigured

/-- Modelled from the spec: the fixed ordered table of the 15
watchdog-oscillator bands, 600 kHz first, 4.6 MHz last. -/
def wdtBandsAscending : List FREQSEL :=
  [.wdt_0_6_mhz, .wdt_1_05_mhz, .wdt_1_4_mhz, .wdt_1_75_mhz, .wdt_2_1_mhz,
   .wdt_2_4_mhz, .wdt_2_7_mhz, .wdt_3_0_mhz, .wdt_3_25_mhz, .wdt_3_5_mhz,
   .wdt_3_75_mhz, .wdt_4_0_mhz, .wdt_4_2_mhz, .wdt_4_4_mhz, .wdt_4_6_mhz]

/-- Modelled from the spec (amended): the quantizer returns, with divisor
1, the first band of the ascending table whose nominal frequency is
strictly greater than the request, and fails with `FrequencyTooHigh`
when there is none (request at or above 4.6 MHz). -/
def watchdogQuantizeSpec (request : Hertz) :
    Except ClockError (FREQSEL × Nat) :=
  match wdtBandsAscending.find?
      (fun b => decide (request.val < (wdtosc_freq_to_hertz b).val)) with
  | some b => .ok (b, 1)
  | none => .error .frequencyTooHigh

/-! ## Theorems for the claims -/

/-- C1 (code bug): at input frequency 280 MHz and target frequency
280 MHz the solver's range check of `p_val8 = 2 * 8 * freq` wraps modulo
`2^32` (4 480 000 000 wraps to 185 032 704, which lies inside
[156 MHz, 320 MHz)), so `calculate_m_p` succeeds with P = 3 although the
true comparator frequency `2 * 2^3 * 280 MHz = 4.48 GHz` violates the
upper bound 320 MHz; the claim requires the solver to fail with
`NoValidPostDivider` here and requires every success to have its
recomputed comparator frequency inside the range. -/
theorem calculate_m_p_overflow_accepts_out_of_range_p :
    calculate_m_p ⟨280000000⟩ (some ⟨280000000⟩) = .ok (0, 3) ∧
    320000000 ≤ 2 * 2 ^ 3 * 280000000 :=
  ⟨rfl, by norm_num⟩

/-- C2 (counterexample): with a crystal of 2^31 Hz and M = 1, the
resolver's `u32` product `crystal_freq * (M+1)` wraps to 0, so the result
is not the mathematical product `crystal_freq × (M+1)` the claim
states. -/
theorem get_main_clock_freq_pll_output_product_wraps :
    get_main_clock_freq .pll_output (some (.crystal_oscillator, 1, 0)) none
        (some ⟨2147483648⟩) = .ok ⟨0⟩ ∧
    2147483648 * (1 + 1) ≠ 0 :=
  ⟨rfl, by norm_num⟩

/-- C2 (amended): for every combination of source, PLL state (with the
multiplier a `u8` value, i.e. below 256), watchdog state and optional
crystal frequency, the resolver follows the spec's case table, with the
`PLLOutput`/`ExternalCrystal` row amended to reduce the product
`crystal_freq × (M+1)` modulo `2^32`, and such a row with no crystal
frequency failing like the `PLLInput` row. -/
theorem get_main_clock_freq_matches_amended_table :
    ∀ (source : MAINCLKSEL) (pll : Option (SYSPLLCLKSEL × Nat × Nat))
      (wdt : Option (FREQSEL × Nat)) (osc : Option Hertz),
      (∀ s m p, pll = some (s, m, p) → m < 256) →
      get_main_clock_freq source pll wdt osc =
        resolveMainClockSpec source pll wdt osc := by
  intro source pll wdt osc h
  rcases pll with _ | ⟨s, m, p⟩
  · cases source <;> rcases wdt with _ | ⟨f, dv⟩ <;> rfl
  · have hm : m < 256 := h s m p rfl
    cases s
    · cases source
      · rfl
      · rfl
      · show Except.ok ⟨u32Mod (IRC_OSCILLATOR_FREQUENCY.val * (m + 1))⟩ =
            Except.ok (⟨12000000 * (m + 1)⟩ : Hertz)
        have hirc : u32Mod (IRC_OSCILLATOR_FREQUENCY.val * (m + 1)) =
            12000000 * (m + 1) := by
          show 12000000 * (m + 1) % 4294967296 = 12000000 * (m + 1)
          omega
        rw [hirc]
      · rcases wdt with _ | ⟨f, dv⟩ <;> rfl
    · cases source
      · rfl
      · rcases osc with _ | ⟨v⟩ <;> rfl
      · rcases osc with _ | ⟨v⟩ <;> rfl
      · rcases wdt with _ | ⟨f, dv⟩ <;> rfl

/-- Witness for the amended C2 theorem at the spec's round-trip example
(PLL output from the internal oscillator, M = 3): both sides resolve the
main clock to 48 MHz. -/
theorem get_main_clock_freq_matches_amended_table_witness :
    get_main_clock_freq .pll_output (some (.irc, 3, 1)) none none =
      resolveMainClockSpec .pll_output (some (.irc, 3, 1)) none none :=
  get_main_clock_freq_matches_amended_table .pll_output
    (some (.irc, 3, 1)) none none
    (by intro s m p hp; cases hp; norm_num)

/-- C3 (code bug): the `Mul<u32>` implementation on `Hertz` computes an
addition: `Hertz(12 MHz) * 4` evaluates to 12 000 004 Hz, not the
48 MHz the claim (`value equals f * n`) requires. -/
theorem hertz_mul_computes_addition :
    Hertz.mul ⟨12000000⟩ 4 = ⟨12000004⟩ ∧
    12000000 * 4 = 48000000 ∧ (12000004 : Nat) ≠ 48000000 :=
  ⟨rfl, rfl, by norm_num⟩

/-- C4 (counterexample): at a request equal to a band's nominal value the
quantizer does not select that band.  A request of exactly 4 600 000 Hz
does not exceed the top band, yet the quantizer fails with
`FrequencyTooHigh`; a request of exactly 600 000 Hz has the 0.6 MHz band
as smallest band with nominal ≥ request, yet the quantizer selects the
1.05 MHz band. -/
theorem watchdog_quantize_boundary_requests :
    watchdogQuantize ⟨4600000⟩ = .error .frequencyTooHigh ∧
    (wdtosc_freq_to_hertz .wdt_4_6_mhz).val = 4600000 ∧
    watchdogQuantize ⟨600000⟩ = .ok (.wdt_1_05_mhz, 1) ∧
    600000 ≤ (wdtosc_freq_to_hertz .wdt_0_6_mhz).val :=
  ⟨rfl, rfl, rfl, by norm_num [wdtosc_freq_to_hertz, WDT_OSC_RATE,
    FREQSEL.toIndex]⟩

/-- Evaluation of the band search of `watchdogQuantizeSpec`: the first
band whose nominal frequency is strictly greater than `n`, written as an
if-chain over the band thresholds. -/
theorem findBand_eval (n : Nat) :
    wdtBandsAscending.find?
        (fun b => decide (n < (wdtosc_freq_to_hertz b).val)) =
      (      if n < 600000 then some FREQSEL.wdt_0_6_mhz
      else if n < 1050000 then some FREQSEL.wdt_1_05_mhz
      else if n < 1400000 then some FREQSEL.wdt_1_4_mhz
      else if n < 1750000 then some FREQSEL.wdt_1_75_mhz
      else if n < 2100000 then some FREQSEL.wdt_2_1_mhz
      else if n < 2400000 then some FREQSEL.wdt_2_4_mhz
      else if n < 2700000 then some FREQSEL.wdt_2_7_mhz
      else if n < 3000000 then some FREQSEL.wdt_3_0_mhz
      else if n < 3250000 then some FREQSEL.wdt_3_25_mhz
      else if n < 3500000 then some FREQSEL.wdt_3_5_mhz
      else if n < 3750000 then some FREQSEL.wdt_3_75_mhz
      else if n < 4000000 then some FREQSEL.wdt_4_0_mhz
      else if n < 4200000 then some FREQSEL.wdt_4_2_mhz
      else if n < 4400000 then some FREQSEL.wdt_4_4_mhz
      else if n < 4600000 then some FREQSEL.wdt_4_6_mhz
      else none) := by
  unfold wdtBandsAscending
  by_cases h1 : n < 600000
  · rw [if_pos h1]
    exact List.find?_cons_of_pos _ (by simpa [wdtosc_freq_to_hertz,
      WDT_OSC_RATE, FREQSEL.toIndex] using h1)
  rw [if_neg h1, List.find?_cons_of_neg _ (by simpa [wdtosc_freq_to_hertz,
    WDT_OSC_RATE, FREQSEL.toIndex] using h1)]
  by_cases h2 : n < 1050000
  · rw [if_pos h2]
    exact List.find?_cons_of_pos _ (by simpa [wdtosc_freq_to_hertz,
      WDT_OSC_RATE, FREQSEL.toIndex] using h2)
  rw [if_neg h2, List.find?_cons_of_neg _ (by simpa [wdtosc_freq_to_hertz,
    WDT_OSC_RATE, FREQSEL.toIndex] using h2)]
  by_cases h3 : n < 1400000
  · rw [if_pos h3]
    exact List.find?_cons_of_pos _ (by simpa [wdtosc_freq_to_hertz,
      WDT_OSC_RATE, FREQSEL.toIndex] using h3)
  rw [if_neg h3, List.find?_cons_of_neg _ (by simpa [wdtosc_freq_to_hertz,
    WDT_OSC_RATE, FREQSEL.toIndex] using h3)]
  by_cases h4 : n < 1750000
  · rw [if_pos h4]
    exact List.find?_cons_of_pos _ (by simpa [wdtosc_freq_to_hertz,
      WDT_OSC_RATE, FREQSEL.toIndex] using h4)
  rw [if_neg h4, List.find?_cons_of_neg _ (by simpa [wdtosc_freq_to_hertz,
    WDT_OSC_RATE, FREQSEL.toIndex] using h4)]
  by_cases h5 : n < 2100000
  · rw [if_pos h5]
    exact List.find?_cons_of_pos _ (by simpa [wdtosc_freq_to_hertz,
      WDT_OSC_RATE, FREQSEL.toIndex] using h5)
  rw [if_neg h5, List.find?_cons_of_neg _ (by simpa [wdtosc_freq_to_hertz,
    WDT_OSC_RATE, FREQSEL.toIndex] using h5)]
  by_cases h6 : n < 2400000
  · rw [if_pos h6]
    exact List.find?_cons_of_pos _ (by simpa [wdtosc_freq_to_hertz,
      WDT_OSC_RATE, FREQSEL.toIndex] using h6)
  rw [if_neg h6, List.find?_cons_of_neg _ (by simpa [wdtosc_freq_to_hertz,
    WDT_OSC_RATE, FREQSEL.toIndex] using h6)]
  by_cases h7 : n < 2700000
  · rw [if_pos h7]
    exact List.find?_cons_of_pos _ (by simpa [wdtosc_freq_to_hertz,
      WDT_OSC_RATE, FREQSEL.toIndex] using h7)
  rw [if_neg h7, List.find?_cons_of_neg _ (by simpa [wdtosc_freq_to_hertz,
    WDT_OSC_RATE, FREQSEL.toIndex] using h7)]
  by_cases h8 : n < 3000000
  · rw [if_pos h8]
    exact List.find?_cons_of_pos _ (by simpa [wdtosc_freq_to_hertz,
      WDT_OSC_RATE, FREQSEL.toIndex] using h8)
  rw [if_neg h8, List.find?_cons_of_neg _ (by simpa [wdtosc_freq_to_hertz,
    WDT_OSC_RATE, FREQSEL.toIndex] using h8)]
  by_cases h9 : n < 3250000
  · rw [if_pos h9]
    exact List.find?_cons_of_pos _ (by simpa [wdtosc_freq_to_hertz,
      WDT_OSC_RATE, FREQSEL.toIndex] using h9)
  rw [if_neg h9, List.find?_cons_of_neg _ (by simpa [wdtosc_freq_to_hertz,
    WDT_OSC_RATE, FREQSEL.toIndex] using h9)]
  by_cases h10 : n < 3500000
  · rw [if_pos h10]
    exact List.find?_cons_of_pos _ (by simpa [wdtosc_freq_to_hertz,
      WDT_OSC_RATE, FREQSEL.toIndex] using h10)
  rw [if_neg h10, List.find?_cons_of_neg _ (by simpa [wdtosc_freq_to_hertz,
    WDT_OSC_RATE, FREQSEL.toIndex] using h10)]
  by_cases h11 : n < 3750000
  · rw [if_pos h11]
    exact List.find?_cons_of_pos _ (by simpa [wdtosc_freq_to_hertz,
      WDT_OSC_RATE, FREQSEL.toIndex] using h11)
  rw [if_neg h11, List.find?_cons_of_neg _ (by simpa [wdtosc_freq_to_hertz,
    WDT_OSC_RATE, FREQSEL.toIndex] using h11)]
  by_cases h12 : n < 4000000
  · rw [if_pos h12]
    exact List.find?_cons_of_pos _ (by simpa [wdtosc_freq_to_hertz,
      WDT_OSC_RATE, FREQSEL.toIndex] using h12)
  rw [if_neg h12, List.find?_cons_of_neg _ (by simpa [wdtosc_freq_to_hertz,
    WDT_OSC_RATE, FREQSEL.toIndex] using h12)]
  by_cases h13 : n < 4200000
  · rw [if_pos h13]
    exact List.find?_cons_of_pos _ (by simpa [wdtosc_freq_to_hertz,
      WDT_OSC_RATE, FREQSEL.toIndex] using h13)
  rw [if_neg h13, List.find?_cons_of_neg _ (by simpa [wdtosc_freq_to_hertz,
    WDT_OSC_RATE, FREQSEL.toIndex] using h13)]
  by_cases h14 : n < 4400000
  · rw [if_pos h14]
    exact List.find?_cons_of_pos _ (by simpa [wdtosc_freq_to_hertz,
      WDT_OSC_RATE, FREQSEL.toIndex] using h14)
  rw [if_neg h14, List.find?_cons_of_neg _ (by simpa [wdtosc_freq_to_hertz,
    WDT_OSC_RATE, FREQSEL.toIndex] using h14)]
  by_cases h15 : n < 4600000
  · rw [if_pos h15]
    exact List.find?_cons_of_pos _ (by simpa [wdtosc_freq_to_hertz,
      WDT_OSC_RATE, FREQSEL.toIndex] using h15)
  rw [if_neg h15, List.find?_cons_of_neg _ (by simpa [wdtosc_freq_to_hertz,
    WDT_OSC_RATE, FREQSEL.toIndex] using h15)]
  rfl

/-- C4 (amended): for every request, the quantizer returns divisor 1
together with the first band of the ascending 15-band table whose nominal
frequency is strictly greater than the request, and fails with
`FrequencyTooHigh` exactly when no band is strictly greater (request at
or above 4.6 MHz). -/
theorem watchdog_quantize_selects_first_strictly_greater_band :
    ∀ f : Hertz, watchdogQuantize f = watchdogQuantizeSpec f := by
  intro f
  unfold watchdogQuantize watchdogQuantizeSpec
  rw [findBand_eval f.val]
  by_cases h1 : f.val < 600000
  · rw [if_pos h1, if_pos h1]
  rw [if_neg h1, if_neg h1]
  by_cases h2 : f.val < 1050000
  · rw [if_pos h2, if_pos h2]
  rw [if_neg h2, if_neg h2]
  by_cases h3 : f.val < 1400000
  · rw [if_pos h3, if_pos h3]
  rw [if_neg h3, if_neg h3]
  by_cases h4 : f.val < 1750000
  · rw [if_pos h4, if_pos h4]
  rw [if_neg h4, if_neg h4]
  by_cases h5 : f.val < 2100000
  · rw [if_pos h5, if_pos h5]
  rw [if_neg h5, if_neg h5]
  by_cases h6 : f.val < 2400000
  · rw [if_pos h6, if_pos h6]
  rw [if_neg h6, if_neg h6]
  by_cases h7 : f.val < 2700000
  · rw [if_pos h7, if_pos h7]
  rw [if_neg h7, if_neg h7]
  by_cases h8 : f.val < 3000000
  · rw [if_pos h8, if_pos h8]
  rw [if_neg h8, if_neg h8]
  by_cases h9 : f.val < 3250000
  · rw [if_pos h9, if_pos h9]
  rw [if_neg h9, if_neg h9]
  by_cases h10 : f.val < 3500000
  · rw [if_pos h10, if_pos h10]
  rw [if_neg h10, if_neg h10]
  by_cases h11 : f.val < 3750000
  · rw [if_pos h11, if_pos h11]
  rw [if_neg h11, if_neg h11]
  by_cases h12 : f.val < 4000000
  · rw [if_pos h12, if_pos h12]
  rw [if_neg h12, if_neg h12]
  by_cases h13 : f.val < 4200000
  · rw [if_pos h13, if_pos h13]
  rw [if_neg h13, if_neg h13]
  by_cases h14 : f.val < 4400000
  · rw [if_pos h14, if_pos h14]
  rw [if_neg h14, if_neg h14]
  by_cases h15 : f.val < 4600000
  · rw [if_pos h15, if_pos h15]
  rw [if_neg h15, if_neg h15]

/-- C8 (counterexample): for the plan that selects the internal
oscillator with divider 1 and one flash wait-state, the hardware
sequence writes the system-clock divider (position 1) and the flash
wait-state register (position 2) before the main-clock mux selection and
its handshake (positions 3-5), contradicting the claim that every
divider/flash write occurs after the mux selection has been latched. -/
theorem build_trace_divider_written_before_mux_select :
    (ClocksDescriptor.buildTrace
        { main_clock_source := .irc_oscillator, system_osc_freq := none,
          system_pll_m_p := none, system_clock_div := 1,
          watchdog_osc := none, flashtim := .clocks1 }) =
      [.pdruncfg_irc_powered, .sysahbclkdiv 1, .flashcfg .clocks1,
       .mainclksel .irc_oscillator, .mainclkuen_no_change,
       .mainclkuen_update, .sysahbclkctrl_iocon_enabled] ∧
    List.findIdx WriteEvent.isDivOrFlashWrite
      (ClocksDescriptor.buildTrace
        { main_clock_source := .irc_oscillator, system_osc_freq := none,
          system_pll_m_p := none, system_clock_div := 1,
          watchdog_osc := none, flashtim := .clocks1 }) = 1 ∧
    List.findIdx WriteEvent.isMainSelectWrite
      (ClocksDescriptor.buildTrace
        { main_clock_source := .irc_oscillator, system_osc_freq := none,
          system_pll_m_p := none, system_clock_div := 1,
          watchdog_osc := none, flashtim := .clocks1 }) = 3 ∧
    (1 : Nat) < 3 :=
  ⟨rfl, rfl, rfl, by norm_num⟩

/-- C8 (amended): in the register-write sequence of the apply operation,
the writes to the divider/flash registers and to the main-clock mux
selection registers occur, for every plan, in exactly this order: the
system-clock divider, then the flash wait-state, then the mux selection,
then the two-register update handshake (write "no change", then write
"update"); so every divider/flash write occurs before the mux selection
is latched. -/
theorem build_trace_div_flash_precede_mux_select :
    ∀ d : ClocksDescriptor,
      (d.buildTrace.filter
          (fun e => e.isDivOrFlashWrite || e.isMainSelectWrite)) =
        [.sysahbclkdiv d.system_clock_div, .flashcfg d.flashtim,
         .mainclksel d.main_clock_source, .mainclkuen_no_change,
         .mainclkuen_update] := by
  intro d
  rcases d with ⟨src, osc, pll, dv, wdt, tim⟩
  rcases pll with _ | ⟨s, m, p⟩
  · cases src <;> rfl
  · cases s <;> cases src <;> rfl

/-- C10 (confirmed): applying `enable_gpio` to any state of the
`SYSAHBCLKCTRL` register clears the USART clock-gate field and leaves
the GPIO gate, the IOCON gate and all remaining bits of the register
unchanged; in particular it never enables a GPIO or IOCON clock gate. -/
theorem enable_gpio_clears_usart_gate_only :
    ∀ (reg s : SYSAHBCLKCTRL), s = Syscon.enable_gpio reg →
      s.usart = false ∧ s.gpio = reg.gpio ∧ s.iocon = reg.iocon ∧
      s.others = reg.others := by
  intro reg s h
  subst h
  exact ⟨rfl, rfl, rfl, rfl⟩

/-- Witness for the C10 theorem at a concrete register state with the
USART gate enabled, the GPIO gate disabled, the IOCON gate enabled and
remaining bits 5. -/
theorem enable_gpio_clears_usart_gate_only_witness :
    ( Syscon.enable_gpio ⟨true, false, true, 5⟩).usart = false ∧
    ( Syscon.enable_gpio ⟨true, false, true, 5⟩).gpio = false ∧
    ( Syscon.enable_gpio ⟨true, false, true, 5⟩).iocon = true ∧
    ( Syscon.enable_gpio ⟨true, false, true, 5⟩).others = 5 :=
  enable_gpio_clears_usart_gate_only ⟨true, false, true, 5⟩ _ rfl

/-- Inversion principle for `ClocksBuilder.validate`: a successful
validation determines every field of the produced descriptor from the
intermediate resolution steps. -/
theorem validate_ok_parts {b : ClocksBuilder} {d : ClocksDescriptor}
    (h : b.validate = .ok d) :
    pllStep b = .ok d.system_pll_m_p ∧
    wdtStep b = .ok d.watchdog_osc ∧
    d.main_clock_source = b.main_clock_source ∧
    d.system_osc_freq = b.system_osc_freq ∧
    ∃ mf, get_main_clock_freq b.main_clock_source d.system_pll_m_p
            d.watchdog_osc b.system_osc_freq = .ok mf ∧
      divStep b mf = .ok d.system_clock_div ∧
      d.system_clock_div ≠ 0 ∧
      flashtimFor (mf.val / d.system_clock_div) = .ok d.flashtim := by
  unfold ClocksBuilder.validate at h
  cases hp : pllStep b with
  | error e => rw [hp] at h; simp at h
  | ok pll =>
    rw [hp] at h
    dsimp only at h
    cases hw : wdtStep b with
    | error e => rw [hw] at h; simp at h
    | ok wdt =>
      rw [hw] at h
      dsimp only at h
      cases hm : get_main_clock_freq b.main_clock_source pll wdt
          b.system_osc_freq with
      | error e => rw [hm] at h; simp at h
      | ok mf =>
        rw [hm] at h
        dsimp only at h
        cases hdv : divStep b mf with
        | error e => rw [hdv] at h; simp at h
        | ok dv =>
          rw [hdv] at h
          dsimp only at h
          by_cases hz : dv = 0
          · rw [if_pos hz] at h; simp at h
          · rw [if_neg hz] at h
            cases hf : flashtimFor (mf.val / dv) with
            | error e => rw [hf] at h; simp at h
            | ok tim =>
              rw [hf] at h
              dsimp only at h
              simp only [Except.ok.injEq] at h
              subst h
              exact ⟨rfl, rfl, rfl, rfl, mf, hm, hdv, hz, hf⟩

/-- C5 (confirmed): during validation the flash wait-state setting is
determined by the resolved system-clock frequency (main-clock frequency
divided by the stored divider) through the fixed thresholds: below
20 MHz one cycle, from 20 MHz below 40 MHz two cycles, from 40 MHz below
50 MHz three cycles; a resolved frequency at or above 50 MHz never
validates, and concretely a 51 MHz request fails with
`FrequencyExceedsFlashRating` while 19 MHz, 30 MHz and 49 MHz requests
produce 1, 2 and 3 wait-states. -/
theorem validate_flash_wait_states :
    (∀ (b : ClocksBuilder) (d : ClocksDescriptor) (mf : Hertz),
      b.validate = .ok d →
      get_main_clock_freq b.main_clock_source d.system_pll_m_p
          d.watchdog_osc b.system_osc_freq = .ok mf →
      (mf.val / d.system_clock_div < 20000000 → d.flashtim = .clocks1) ∧
      (20000000 ≤ mf.val / d.system_clock_div →
        mf.val / d.system_clock_div < 40000000 → d.flashtim = .clocks2) ∧
      (40000000 ≤ mf.val / d.system_clock_div →
        mf.val / d.system_clock_div < 50000000 → d.flashtim = .clocks3) ∧
      mf.val / d.system_clock_div < 50000000) ∧
    (((ClocksBuilder.new (some ⟨19000000⟩)).mainClock .pll_input).systemPll
        .crystal_oscillator ⟨19000000⟩).validate =
      .ok { main_clock_source := .pll_input,
            system_osc_freq := some ⟨19000000⟩,
            system_pll_m_p := some (.crystal_oscillator, 0, 3),
            system_clock_div := 1, watchdog_osc := none,
            flashtim := .clocks1 } ∧
    (((ClocksBuilder.new (some ⟨30000000⟩)).mainClock .pll_input).systemPll
        .crystal_oscillator ⟨30000000⟩).validate =
      .ok { main_clock_source := .pll_input,
            system_osc_freq := some ⟨30000000⟩,
            system_pll_m_p := some (.crystal_oscillator, 0, 2),
            system_clock_div := 1, watchdog_osc := none,
            flashtim := .clocks2 } ∧
    (((ClocksBuilder.new (some ⟨49000000⟩)).mainClock .pll_input).systemPll
        .crystal_oscillator ⟨49000000⟩).validate =
      .ok { main_clock_source := .pll_input,
            system_osc_freq := some ⟨49000000⟩,
            system_pll_m_p := some (.crystal_oscillator, 0, 1),
            system_clock_div := 1, watchdog_osc := none,
            flashtim := .clocks3 } ∧
    (((ClocksBuilder.new (some ⟨51000000⟩)).mainClock .pll_input).systemPll
        .crystal_oscillator ⟨51000000⟩).validate =
      .error .frequencyExceedsFlashRating := by
  refine ⟨?_, rfl, rfl, rfl, rfl⟩
  intro b d mf hv hm
  obtain ⟨-, -, -, -, mf', hm', hdv, hz, hf⟩ := validate_ok_parts hv
  have hmf : mf' = mf := by
    have := hm.symm.trans hm'
    injection this with h'
    exact h'.symm
  subst hmf
  unfold flashtimFor at hf
  split_ifs at hf with t1 t2 t3
  · injection hf with hf'
    exact ⟨fun _ => hf'.symm, fun h1 _ => absurd t1 (by omega),
      fun h1 _ => absurd t1 (by omega), by omega⟩
  · injection hf with hf'
    exact ⟨fun hx => absurd hx t1, fun _ _ => hf'.symm,
      fun h1 _ => by omega, by omega⟩
  · injection hf with hf'
    exact ⟨fun hx => absurd hx t1, fun _ hx => absurd hx (by omega),
      fun _ _ => hf'.symm, by omega⟩

/-- Witness for the C5 theorem at the 19 MHz request: its descriptor
carries one flash wait-state. -/
theorem validate_flash_wait_states_witness :
    ({ main_clock_source := .pll_input, system_osc_freq := some ⟨19000000⟩,
       system_pll_m_p := some (.crystal_oscillator, 0, 3),
       system_clock_div := 1, watchdog_osc := none,
       flashtim := .clocks1 } : ClocksDescriptor).flashtim = .clocks1 :=
  (validate_flash_wait_states.1
    (((ClocksBuilder.new (some ⟨19000000⟩)).mainClock .pll_input).systemPll
      .crystal_oscillator ⟨19000000⟩)
    { main_clock_source := .pll_input, system_osc_freq := some ⟨19000000⟩,
      system_pll_m_p := some (.crystal_oscillator, 0, 3),
      system_clock_div := 1, watchdog_osc := none, flashtim := .clocks1 }
    ⟨19000000⟩ rfl rfl).1 (by decide)

/-- C6 (amended): when a system-clock target is requested, validation
requires the main-clock frequency to be an exact multiple of the target
(for a nonzero target it fails with `NotIntegerDivisible` otherwise) and
stores as divider the quotient reduced modulo 256 (the `as u8` cast); a
quotient below 256 is stored exactly, so main clock 48 MHz with target
12 MHz stores divider 4 and target 10 MHz fails; with no target the
divider defaults to 1. -/
theorem validate_system_clock_divider :
    (∀ (b : ClocksBuilder) (d : ClocksDescriptor),
      b.validate = .ok d → b.system_clock_freq = none →
      d.system_clock_div = 1) ∧
    (∀ (b : ClocksBuilder) (d : ClocksDescriptor) (t mf : Hertz),
      b.validate = .ok d → b.system_clock_freq = some t →
      get_main_clock_freq b.main_clock_source d.system_pll_m_p
          d.watchdog_osc b.system_osc_freq = .ok mf →
      mf.val % t.val = 0 ∧ d.system_clock_div = (mf.val / t.val) % 256) ∧
    (∀ (b : ClocksBuilder) (t mf : Hertz)
      (pll : Option (SYSPLLCLKSEL × Nat × Nat))
      (wdt : Option (FREQSEL × Nat)),
      b.system_clock_freq = some t → t.val ≠ 0 →
      pllStep b = .ok pll → wdtStep b = .ok wdt →
      get_main_clock_freq b.main_clock_source pll wdt
        b.system_osc_freq = .ok mf →
      mf.val % t.val ≠ 0 → b.validate = .error .notIntegerDivisible) ∧
    ((((ClocksBuilder.new (some ⟨48000000⟩)).mainClock .pll_input).systemPll
        .crystal_oscillator ⟨48000000⟩).systemClock ⟨12000000⟩).validate =
      .ok { main_clock_source := .pll_input,
            system_osc_freq := some ⟨48000000⟩,
            system_pll_m_p := some (.crystal_oscillator, 0, 1),
            system_clock_div := 4, watchdog_osc := none,
            flashtim := .clocks1 } ∧
    ((((ClocksBuilder.new (some ⟨48000000⟩)).mainClock .pll_input).systemPll
        .crystal_oscillator ⟨48000000⟩).systemClock ⟨10000000⟩).validate =
      .error .notIntegerDivisible := by
  refine ⟨?_, ?_, ?_, rfl, rfl⟩
  · intro b d hv hn
    obtain ⟨-, -, -, -, mf', -, hdv, -, -⟩ := validate_ok_parts hv
    unfold divStep at hdv
    rw [hn] at hdv
    dsimp only at hdv
    injection hdv with h'
    exact h'.symm
  · intro b d t mf hv hs hm
    obtain ⟨-, -, -, -, mf', hm', hdv, -, -⟩ := validate_ok_parts hv
    have hmf : mf' = mf := by
      have := hm.symm.trans hm'
      injection this with h'
      exact h'.symm
    subst hmf
    unfold divStep at hdv
    rw [hs] at hdv
    dsimp only at hdv
    split_ifs at hdv with hz0 hmod
    · injection hdv with h'
      exact ⟨hmod, h'.symm⟩
  · intro b t mf pll wdt hs ht hp hw hm hmod
    unfold ClocksBuilder.validate
    rw [hp]
    dsimp only
    rw [hw]
    dsimp only
    rw [hm]
    dsimp only
    have hdv : divStep b mf = .error .notIntegerDivisible := by
      unfold divStep
      rw [hs]
      dsimp only
      rw [if_neg ht, if_neg hmod]
    rw [hdv]

/-- Witness for the C6 theorem at the 48 MHz / 12 MHz example: the
quotient is exact and the stored divider is 48 MHz / 12 MHz mod 256,
that is 4. -/
theorem validate_system_clock_divider_witness :
    (48000000 : Nat) % 12000000 = 0 ∧
    ({ main_clock_source := .pll_input, system_osc_freq := some ⟨48000000⟩,
       system_pll_m_p := some (.crystal_oscillator, 0, 1),
       system_clock_div := 4, watchdog_osc := none,
       flashtim := .clocks1 } : ClocksDescriptor).system_clock_div =
      (48000000 / 12000000) % 256 :=
  validate_system_clock_divider.2.1
    ((((ClocksBuilder.new (some ⟨48000000⟩)).mainClock .pll_input).systemPll
      .crystal_oscillator ⟨48000000⟩).systemClock ⟨12000000⟩)
    { main_clock_source := .pll_input, system_osc_freq := some ⟨48000000⟩,
      system_pll_m_p := some (.crystal_oscillator, 0, 1),
      system_clock_div := 4, watchdog_osc := none, flashtim := .clocks1 }
    ⟨12000000⟩ ⟨48000000⟩ rfl rfl rfl

/-- C7 (confirmed): validation is deterministic and side-effect free
(the embedding of `validate` is a pure function of the request alone):
two requests with identical fields validate to identical results, and
whenever both runs succeed the produced descriptors agree on every
field — main clock source, crystal frequency, PLL (M,P), system-clock
divider, watchdog configuration and flash wait-state. -/
theorem validate_is_deterministic :
    ∀ b1 b2 : ClocksBuilder,
      b1.main_clock_source = b2.main_clock_source →
      b1.system_pll = b2.system_pll →
      b1.system_clock_freq = b2.system_clock_freq →
      b1.system_osc_freq = b2.system_osc_freq →
      b1.watchdog_osc_freq = b2.watchdog_osc_freq →
      b1.validate = b2.validate ∧
      (∀ d1 d2, b1.validate = .ok d1 → b2.validate = .ok d2 →
        d1.main_clock_source = d2.main_clock_source ∧
        d1.system_osc_freq = d2.system_osc_freq ∧
        d1.system_pll_m_p = d2.system_pll_m_p ∧
        d1.system_clock_div = d2.system_clock_div ∧
        d1.watchdog_osc = d2.watchdog_osc ∧
        d1.flashtim = d2.flashtim) := by
  intro b1 b2 h1 h2 h3 h4 h5
  have hbb : b1 = b2 := by
    cases b1
    cases b2
    simp_all
  subst hbb
  refine ⟨rfl, ?_⟩
  intro d1 d2 hv1 hv2
  have hd : d1 = d2 := by
    have := hv1.symm.trans hv2
    injection this
  subst hd
  exact ⟨rfl, rfl, rfl, rfl, rfl, rfl⟩

/-- Witness for the C7 theorem: two copies of the default builder with a
12 MHz crystal validate identically. -/
theorem validate_is_deterministic_witness :
    (ClocksBuilder.new (some ⟨12000000⟩)).validate =
      (ClocksBuilder.new (some ⟨12000000⟩)).validate :=
  (validate_is_deterministic _ _ rfl rfl rfl rfl rfl).1

/-- C9 (amended): the stored system-clock divider is the quotient
main-clock frequency / target truncated to 8 bits, so it is always below
256 and, whenever validation succeeds, equals the quotient modulo 256 —
concretely a 26 MHz main clock with a 100 kHz target (quotient 260)
validates with stored divider 4 and no error; but the claim's own
example, quotient exactly 256, truncates to divider 0 and validation
then fails with a division-by-zero panic instead of storing 0. -/
theorem validate_divider_truncates_to_u8 :
    (∀ (b : ClocksBuilder) (d : ClocksDescriptor) (t : Hertz),
      b.validate = .ok d → b.system_clock_freq = some t →
      d.system_clock_div < 256 ∧ d.system_clock_div ≠ 0 ∧
      ∃ mf, get_main_clock_freq b.main_clock_source d.system_pll_m_p
          d.watchdog_osc b.system_osc_freq = .ok mf ∧
        d.system_clock_div = (mf.val / t.val) % 256) ∧
    ((((ClocksBuilder.new (some ⟨26000000⟩)).mainClock .pll_input).systemPll
        .crystal_oscillator ⟨26000000⟩).systemClock ⟨100000⟩).validate =
      .ok { main_clock_source := .pll_input,
            system_osc_freq := some ⟨26000000⟩,
            system_pll_m_p := some (.crystal_oscillator, 0, 2),
            system_clock_div := 4, watchdog_osc := none,
            flashtim := .clocks1 } ∧
    (26000000 : Nat) / 100000 = 260 := by
  refine ⟨?_, rfl, rfl⟩
  intro b d t hv hs
  obtain ⟨-, -, -, -, mf', hm', hdv, hz, -⟩ := validate_ok_parts hv
  unfold divStep at hdv
  rw [hs] at hdv
  dsimp only at hdv
  split_ifs at hdv with hz0 hmod
  · injection hdv with h'
    exact ⟨h' ▸ Nat.mod_lt _ (by norm_num), hz, mf', hm', h'.symm⟩

/-- Witness for the C9 theorem at the quotient-260 example: the stored
divider is below 256. -/
theorem validate_divider_truncates_to_u8_witness :
    ({ main_clock_source := .pll_input, system_osc_freq := some ⟨26000000⟩,
       system_pll_m_p := some (.crystal_oscillator, 0, 2),
       system_clock_div := 4, watchdog_osc := none,
       flashtim := .clocks1 } : ClocksDescriptor).system_clock_div < 256 :=
  (validate_divider_truncates_to_u8.1
    ((((ClocksBuilder.new (some ⟨26000000⟩)).mainClock .pll_input).systemPll
      .crystal_oscillator ⟨26000000⟩).systemClock ⟨100000⟩)
    { main_clock_source := .pll_input, system_osc_freq := some ⟨26000000⟩,
      system_pll_m_p := some (.crystal_oscillator, 0, 2),
      system_clock_div := 4, watchdog_osc := none, flashtim := .clocks1 }
    ⟨100000⟩ rfl rfl).1

/-- C6 (counterexample): a 26 MHz main clock with a 100 kHz system-clock
target has exact integer quotient 260, yet the descriptor stores divider
4 (the quotient modulo 256, via the `as u8` cast), not the quotient
itself as the claim states. -/
theorem validate_divider_differs_from_exact_quotient :
    ((((ClocksBuilder.new (some ⟨26000000⟩)).mainClock .pll_input).systemPll
        .crystal_oscillator ⟨26000000⟩).systemClock ⟨100000⟩).validate =
      .ok { main_clock_source := .pll_input,
            system_osc_freq := some ⟨26000000⟩,
            system_pll_m_p := some (.crystal_oscillator, 0, 2),
            system_clock_div := 4, watchdog_osc := none,
            flashtim := .clocks1 } ∧
    (26000000 : Nat) / 100000 = 260 ∧ (4 : Nat) ≠ 260 :=
  ⟨rfl, rfl, by norm_num⟩

/-- C9 (counterexample): at the claim's own example — main clock 48 MHz,
target 187 500 Hz, exact quotient 256 — the `as u8` cast stores divider
0 and the subsequent division `main_clock_freq / system_clock_div`
panics, so validation fails (with a divide-by-zero panic) rather than
producing a plan with divider 0 and no validation error as the claim
states. -/
theorem validate_quotient_multiple_of_256_divide_by_zero :
    ((((ClocksBuilder.new (some ⟨48000000⟩)).mainClock .pll_input).systemPll
        .crystal_oscillator ⟨48000000⟩).systemClock ⟨187500⟩).validate =
      .error .divideByZero ∧
    (48000000 : Nat) / 187500 = 256 :=
  ⟨rfl, rfl⟩

end Lpc11uxx
